import Mathlib

/-!
Shallow embedding of the AI-Agent evaluation edge functions.

The repository has two request handlers sharing one pattern:
* an "evaluate" function: validates the request, runs the Gemini provider K
  times sequentially against one fixed model, and folds the runs into a
  Pass@K summary (`calculatePassAtK`);
* an "ab-test" function: validates the request, runs the provider R times for
  each of three fixed model variants (`testModel` per model), producing
  per-model average latency / token statistics.

The network is modelled as an environment: a function giving, for a model
identifier and the index of the call within that model's loop, the outcome of
that provider call (an HTTP error with status and body, or a parsed JSON
payload together with the wall-clock readings taken around the call).  Every
handler returns, besides its HTTP-level result, the number of provider calls
it performed, which instruments the fetch side effect.

JavaScript number arithmetic is modelled with exact rationals; `Date.now()`
readings are integers (milliseconds).  JavaScript truthiness of the `||`
defaulting idiom is modelled explicitly (`jsOrInt`, `jsOrString`, `jsOrNat`).
-/

namespace AgentEval

/-- Emptiness of a string, via its character list. -/
def strIsEmpty (s : String) : Bool := s.data.isEmpty

/-- JS `s.trim()`: strip whitespace from both ends. -/
def jsTrim (s : String) : String :=
  ⟨((s.data.dropWhile Char.isWhitespace).reverse.dropWhile Char.isWhitespace).reverse⟩

/-- JS `s.toLowerCase()` (ASCII letters). -/
def jsToLower (s : String) : String := ⟨s.data.map Char.toLower⟩

/-- JS `Math.round`: round half toward positive infinity. -/
def jsRound (x : ℚ) : ℤ := ⌊x + 1 / 2⌋

/-- JS idiom `Math.round(x * 100) / 100`: round to 2 decimal places. -/
def round2 (x : ℚ) : ℚ := (jsRound (x * 100) : ℚ) / 100

/-- JS `intExpr || d` for an optional integer: `undefined` and `0` are falsy. -/
def jsOrInt (v : Option ℤ) (d : ℤ) : ℤ :=
  match v with
  | none => d
  | some x => if x == 0 then d else x

/-- JS `strExpr || d` for an optional string: `undefined` and `""` are falsy. -/
def jsOrString (v : Option String) (d : String) : String :=
  match v with
  | none => d
  | some s => if strIsEmpty s then d else s

/-- JS `natExpr || d` for an optional token count: `undefined` and `0` are falsy. -/
def jsOrNat (v : Option ℕ) (d : ℕ) : ℕ :=
  match v with
  | none => d
  | some n => if n == 0 then d else n

/-- JS truthiness of an optional string (the `GEMINI_API_KEY` check). -/
def jsTruthyStr (v : Option String) : Bool :=
  match v with
  | none => false
  | some s => !strIsEmpty s

/-- Decides whether `pat` occurs at the start of `s` (JS `startsWith` on char lists). -/
def isPrefixList : List Char → List Char → Bool
  | [], _ => true
  | _ :: _, [] => false
  | a :: pat, b :: s => a == b && isPrefixList pat s

/-- Decides whether `pat` occurs anywhere inside `s` (JS `includes` on char lists). -/
def listIncludes : List Char → List Char → Bool
  | pat, [] => isPrefixList pat []
  | pat, s@(_ :: rest) => isPrefixList pat s || listIncludes pat rest

/-- JS `s.includes(pat)` on strings, via the underlying character lists. -/
def strIncludes (s pat : String) : Bool :=
  listIncludes pat.data s.data

/-- Source `checkSuccess`: blank expected output means automatic success,
otherwise case-insensitive substring containment of the expected output in
the response text. -/
def checkSuccess (responseText expectedOutput : String) : Bool :=
  if strIsEmpty (jsTrim expectedOutput) then true
  else strIncludes (jsToLower responseText) (jsToLower expectedOutput)

/-- One safety entry of a Gemini candidate. -/
structure SafetyRating where
  category : String
  probability : String
deriving Repr, DecidableEq

/-- One part of a candidate's content; `text` may be absent. -/
structure ContentPart where
  text : Option String
deriving Repr, DecidableEq

/-- Content of a candidate; the `parts` array may be absent. -/
structure Content where
  parts : Option (List ContentPart)
deriving Repr, DecidableEq

/-- One candidate of a Gemini response; every level may be absent. -/
structure Candidate where
  content : Option Content
  safetyRatings : Option (List SafetyRating)
deriving Repr, DecidableEq

/-- Token usage block; each count may be absent. -/
structure UsageMetadata where
  promptTokenCount : Option ℕ
  candidatesTokenCount : Option ℕ
deriving Repr, DecidableEq

/-- Parsed JSON payload of a successful Gemini call; every level may be absent. -/
structure GeminiData where
  candidates : Option (List Candidate)
  usageMetadata : Option UsageMetadata
deriving Repr, DecidableEq

/-- Optional chain `data.candidates?.[0]?.content?.parts?.[0]?.text`. -/
def textChain (d : GeminiData) : Option String := do
  let cs ← d.candidates
  let c ← cs.head?
  let ct ← c.content
  let ps ← ct.parts
  let p ← ps.head?
  p.text

/-- Source extraction `data.candidates?.[0]?.content?.parts?.[0]?.text || ""`. -/
def extractText (d : GeminiData) : String :=
  jsOrString (textChain d) ""

/-- Optional chain `data.candidates?.[0]?.safetyRatings`. -/
def firstSafety (d : GeminiData) : Option (List SafetyRating) := do
  let cs ← d.candidates
  let c ← cs.head?
  c.safetyRatings

/-- JS object property assignment `m[k] = v`: overwrite in place or append. -/
def recSet (m : List (String × String)) (k v : String) : List (String × String) :=
  if m.any (fun p => p.1 == k) then
    m.map (fun p => if p.1 == k then (p.1, v) else p)
  else m ++ [(k, v)]

/-- Source loop `for (const rating of safetyRatings) map[category] = probability`. -/
def buildSafetyMap (rs : List SafetyRating) : List (String × String) :=
  rs.foldl (fun m r => recSet m r.category r.probability) []

/-- Source extraction of the safety-rating map; absent entries give `[]`. -/
def extractSafety (d : GeminiData) : List (String × String) :=
  match firstSafety d with
  | none => []
  | some rs => buildSafetyMap rs

/-- Source `tokenCount = (promptTokenCount || 0) + (candidatesTokenCount || 0)`. -/
def extractTokens (d : GeminiData) : ℕ :=
  jsOrNat (d.usageMetadata.bind (fun u => u.promptTokenCount)) 0 +
  jsOrNat (d.usageMetadata.bind (fun u => u.candidatesTokenCount)) 0

/-- Detail string of the error thrown on a non-ok provider response. -/
def geminiErrorMessage (status : ℕ) (body : String) : String :=
  "Gemini API error: " ++ toString status ++ " - " ++ body

/-- Environment-supplied outcome of one provider call: a non-ok HTTP response
with status and raw body, or a parsed payload with the `Date.now()` readings
taken before and after the call and the timestamp string built afterwards. -/
inductive ProviderOutcome where
  | httpError (status : ℕ) (body : String)
  | success (data : GeminiData) (startTime endTime : ℤ) (timestamp : String)
deriving Repr, DecidableEq

/-- Per-run record produced by the runner. -/
structure RunResult where
  run_number : ℕ
  response_text : String
  latency_ms : ℚ
  token_count : ℕ
  safety_ratings : List (String × String)
  success : Bool
  timestamp : String
deriving Repr, DecidableEq

/-- Source `runSingleEvaluation` of the evaluate function: one provider call,
tolerant parsing, and the `checkSuccess` flag.  The `run_number` placeholder
is `0`; the aggregator overwrites it. -/
def runSingleEvaluationEval (expectedOutput : String) (o : ProviderOutcome) :
    Except String RunResult :=
  match o with
  | .httpError status body => .error (geminiErrorMessage status body)
  | .success d startTime endTime ts =>
    let latencyMs : ℤ := endTime - startTime
    let responseText := extractText d
    .ok {
      run_number := 0
      response_text := responseText
      latency_ms := round2 (latencyMs : ℚ)
      token_count := extractTokens d
      safety_ratings := extractSafety d
      success := checkSuccess responseText expectedOutput
      timestamp := ts }

/-- Source `runSingleEvaluation` of the ab-test function: identical parsing,
but `success` is the constant `true` (no success criterion for comparisons). -/
def runSingleEvaluationAB (o : ProviderOutcome) : Except String RunResult :=
  match o with
  | .httpError status body => .error (geminiErrorMessage status body)
  | .success d startTime endTime ts =>
    let latencyMs : ℤ := endTime - startTime
    .ok {
      run_number := 0
      response_text := extractText d
      latency_ms := round2 (latencyMs : ℚ)
      token_count := extractTokens d
      safety_ratings := extractSafety d
      success := true
      timestamp := ts }

/-- Runs `i = 0 .. n-1` of the evaluate loop: call `i` uses `provider i`, gets
`run_number := i + 1`, and is appended; the first thrown error aborts the
loop.  The second component counts provider calls actually made. -/
def evalRuns (expectedOutput : String) (provider : ℕ → ProviderOutcome) :
    ℕ → Except String (List RunResult) × ℕ
  | 0 => (.ok [], 0)
  | n + 1 =>
    match evalRuns expectedOutput provider n with
    | (.error e, c) => (.error e, c)
    | (.ok prev, c) =>
      match runSingleEvaluationEval expectedOutput (provider n) with
      | .error e => (.error e, c + 1)
      | .ok r => (.ok (prev ++ [{ r with run_number := n + 1 }]), c + 1)

/-- Response payload of the evaluate function. -/
structure EvaluationResponse where
  pass_at_k : ℚ
  average_latency : ℚ
  success_rate : ℚ
  total_runs : ℕ
  runs : List RunResult
deriving Repr, DecidableEq

/-- Source `calculatePassAtK`: run the loop `k` times against the fixed default
model, then fold the runs into the Pass@K summary. -/
def calculatePassAtK (expectedOutput : String) (provider : ℕ → ProviderOutcome)
    (k : ℕ) : Except String EvaluationResponse × ℕ :=
  match evalRuns expectedOutput provider k with
  | (.error e, c) => (.error e, c)
  | (.ok runs, c) =>
    let successfulRuns := (runs.filter (fun run => run.success)).length
    let passAtK : ℚ := if k > 0 then ((successfulRuns : ℚ) / (k : ℚ)) * 100 else 0
    let averageLatency : ℚ :=
      if k > 0 then (runs.foldl (fun sum run => sum + run.latency_ms) 0) / (k : ℚ) else 0
    (.ok {
      pass_at_k := round2 passAtK
      average_latency := round2 averageLatency
      success_rate := round2 passAtK
      total_runs := k
      runs := runs }, c)

/-- Runs `i = 0 .. n-1` of one model's loop in the ab-test function. -/
def abRuns (provider : ℕ → ProviderOutcome) :
    ℕ → Except String (List RunResult) × ℕ
  | 0 => (.ok [], 0)
  | n + 1 =>
    match abRuns provider n with
    | (.error e, c) => (.error e, c)
    | (.ok prev, c) =>
      match runSingleEvaluationAB (provider n) with
      | .error e => (.error e, c + 1)
      | .ok r => (.ok (prev ++ [{ r with run_number := n + 1 }]), c + 1)

/-- Per-model result of a comparison. -/
structure ModelResult where
  model_name : String
  average_latency : ℚ
  success_rate : ℚ
  average_tokens : ℚ
  runs : List RunResult
deriving Repr, DecidableEq

/-- Source `testModel`: run one model `runsPerModel` times and fold the runs
into averages; `success_rate` is the constant `100.0`. -/
def testModel (modelDisplayName : String) (provider : ℕ → ProviderOutcome)
    (runsPerModel : ℕ) : Except String ModelResult × ℕ :=
  match abRuns provider runsPerModel with
  | (.error e, c) => (.error e, c)
  | (.ok runs, c) =>
    let averageLatency : ℚ :=
      if runs.length > 0 then
        (runs.foldl (fun sum run => sum + run.latency_ms) 0) / (runs.length : ℚ)
      else 0
    let averageTokens : ℚ :=
      if runs.length > 0 then
        (runs.foldl (fun sum run => sum + (run.token_count : ℚ)) 0) / (runs.length : ℚ)
      else 0
    (.ok {
      model_name := modelDisplayName
      average_latency := round2 averageLatency
      success_rate := 100
      average_tokens := round2 averageTokens
      runs := runs }, c)

/-- The fixed model list of the ab-test handler: identifier and display name,
in evaluation order. -/
def modelsList : List (String × String) :=
  [("gemini-1.5-flash-8b", "Gemini 1.5 Flash 8B (Fast)"),
   ("gemini-1.5-flash", "Gemini 1.5 Flash (Balanced)"),
   ("gemini-1.5-pro", "Gemini 1.5 Pro (Quality)")]

/-- Response payload of the ab-test function. -/
structure ABTestResponse where
  models : List ModelResult
deriving Repr, DecidableEq

/-- The model loop of the ab-test handler: `testModel` for each entry in
order; a failure aborts the whole comparison.  Provider calls are counted
across models. -/
def runModels (provider : String → ℕ → ProviderOutcome) (runsPerModel : ℕ) :
    List (String × String) → Except String (List ModelResult) × ℕ
  | [] => (.ok [], 0)
  | (modelId, modelDisplayName) :: rest =>
    match testModel modelDisplayName (provider modelId) runsPerModel with
    | (.error e, c) => (.error e, c)
    | (.ok m, c) =>
      match runModels provider runsPerModel rest with
      | (.error e, c2) => (.error e, c + c2)
      | (.ok ms, c2) => (.ok (m :: ms), c + c2)

/-- Request body of the evaluate function; absent JSON fields are `none`. -/
structure EvaluationRequest where
  task : Option String
  expected_output : Option String
  k : Option ℤ
deriving Repr, DecidableEq

/-- Request body of the ab-test function; absent JSON fields are `none`. -/
structure ABTestRequest where
  task : Option String
  runs_per_model : Option ℤ
deriving Repr, DecidableEq

/-- HTTP-level result of a handler: 400 with detail, 500 with detail, or a
200 payload.  An error response carries no run records. -/
inductive HandlerResult (α : Type) where
  | badRequest (detail : String)
  | serverError (detail : String)
  | ok (value : α)
deriving Repr, DecidableEq

/-- Whether a handler result is the 400 `InvalidArgument` shape. -/
def HandlerResult.isBadRequest {α : Type} : HandlerResult α → Bool
  | .badRequest _ => true
  | _ => false

/-- Whether a handler result is the 200 shape. -/
def HandlerResult.isOk {α : Type} : HandlerResult α → Bool
  | .ok _ => true
  | _ => false

/-- Source check `!body.task?.trim()`: absent, empty or whitespace-only. -/
def taskIsBlank (t : Option String) : Bool :=
  match t with
  | none => true
  | some s => strIsEmpty (jsTrim s)

/-- The evaluate request handler: API-key check, task and `k` validation
(`const k = body.k || 3`), then `calculatePassAtK`; thrown errors become 500
responses.  The second component counts provider calls. -/
def handleEvaluate (body : EvaluationRequest) (provider : ℕ → ProviderOutcome)
    (apiKey : Option String) : HandlerResult EvaluationResponse × ℕ :=
  if !jsTruthyStr apiKey then
    (.serverError ("GEMINI_API_KEY environment variable is required"), 0)
  else if taskIsBlank body.task then
    (.badRequest ("task cannot be empty"), 0)
  else
    let k := jsOrInt body.k 3
    if k < 1 || k > 10 then
      (.badRequest ("k must be between 1 and 10"), 0)
    else
      match calculatePassAtK (jsOrString body.expected_output ("")) provider k.toNat with
      | (.error e, c) => (.serverError e, c)
      | (.ok r, c) => (.ok r, c)

/-- The ab-test request handler: API-key check, task and `runs_per_model`
validation (`const runsPerModel = body.runs_per_model || 3`), then the model
loop; thrown errors become 500 responses. -/
def handleABTest (body : ABTestRequest) (provider : String → ℕ → ProviderOutcome)
    (apiKey : Option String) : HandlerResult ABTestResponse × ℕ :=
  if !jsTruthyStr apiKey then
    (.serverError ("GEMINI_API_KEY environment variable is required"), 0)
  else if taskIsBlank body.task then
    (.badRequest ("task cannot be empty"), 0)
  else
    let runsPerModel := jsOrInt body.runs_per_model 3
    if runsPerModel < 1 || runsPerModel > 10 then
      (.badRequest ("runs_per_model must be between 1 and 10"), 0)
    else
      match runModels provider runsPerModel.toNat modelsList with
      | (.error e, c) => (.serverError e, c)
      | (.ok ms, c) => (.ok { models := ms }, c)

/-! ### Arithmetic and string lemmas -/

theorem jsRound_intCast (n : ℤ) : jsRound ((n : ℚ)) = n := by
  unfold jsRound
  rw [Int.floor_eq_iff]
  constructor
  · linarith
  · linarith

theorem round2_intCast (n : ℤ) : round2 ((n : ℚ)) = (n : ℚ) := by
  unfold round2
  have h : ((n : ℚ)) * 100 = (((100 * n : ℤ) : ℚ)) := by push_cast; ring
  rw [h, jsRound_intCast]
  push_cast
  ring

theorem isPrefixList_iff (pat s : List Char) :
    isPrefixList pat s = true ↔ ∃ post, s = pat ++ post := by
  induction pat generalizing s with
  | nil =>
    simp [isPrefixList]
  | cons a as ih =>
    cases s with
    | nil =>
      simp [isPrefixList]
    | cons b bs =>
      simp only [isPrefixList, Bool.and_eq_true, beq_iff_eq, ih, List.cons_append,
        List.cons.injEq]
      constructor
      · rintro ⟨hab, post, hpost⟩
        exact ⟨post, hab.symm, hpost⟩
      · rintro ⟨post, hab, hpost⟩
        exact ⟨hab.symm, post, hpost⟩

theorem listIncludes_iff (pat s : List Char) :
    listIncludes pat s = true ↔ ∃ pre post, s = pre ++ pat ++ post := by
  induction s with
  | nil =>
    simp only [listIncludes, isPrefixList_iff]
    constructor
    · rintro ⟨post, hpost⟩
      exact ⟨[], post, by simpa using hpost⟩
    · rintro ⟨pre, post, hpost⟩
      exact ⟨post, by
        rcases List.append_eq_nil.mp ((List.append_assoc pre pat post ▸ hpost).symm) with ⟨h1, h2⟩
        simp [h2]⟩
  | cons b bs ih =>
    simp only [listIncludes, Bool.or_eq_true, isPrefixList_iff, ih]
    constructor
    · rintro (⟨post, hpost⟩ | ⟨pre, post, hpost⟩)
      · exact ⟨[], post, by simpa using hpost⟩
      · exact ⟨b :: pre, post, by simp [hpost]⟩
    · rintro ⟨pre, post, hpost⟩
      cases pre with
      | nil => exact Or.inl ⟨post, by simpa using hpost⟩
      | cons c cs =>
        right
        refine ⟨cs, post, ?_⟩
        have := hpost
        simp only [List.cons_append, List.cons.injEq] at this
        exact this.2

theorem strIncludes_iff (s pat : String) :
    strIncludes s pat = true ↔ ∃ pre post, s.data = pre ++ pat.data ++ post := by
  unfold strIncludes
  exact listIncludes_iff pat.data s.data

/-! ### Loop lemmas -/

theorem foldl_add_map (f : RunResult → ℚ) (a : ℚ) (l : List RunResult) :
    l.foldl (fun sum run => sum + f run) a = a + (l.map f).sum := by
  induction l generalizing a with
  | nil => simp
  | cons hd tl ih => simp [ih, add_assoc]

theorem evalRuns_ok_spec (expectedOutput : String) (provider : ℕ → ProviderOutcome) :
    ∀ n l c, evalRuns expectedOutput provider n = (.ok l, c) →
      l.map (fun r => r.run_number) = List.range' 1 n ∧ l.length = n ∧ c = n := by
  intro n
  induction n with
  | zero =>
    intro l c h
    simp only [evalRuns, Prod.mk.injEq, Except.ok.injEq] at h
    obtain ⟨h1, h2⟩ := h
    subst h1; subst h2
    simp
  | succ n ih =>
    intro l c h
    simp only [evalRuns] at h
    cases h' : evalRuns expectedOutput provider n with
    | mk res c0 =>
      rw [h'] at h
      cases res with
      | error e => simp at h
      | ok prev =>
        cases h'' : runSingleEvaluationEval expectedOutput (provider n) with
        | error e => rw [h''] at h; simp at h
        | ok r =>
          rw [h''] at h
          simp only [Prod.mk.injEq, Except.ok.injEq] at h
          obtain ⟨hl, hc⟩ := h
          obtain ⟨hmap, hlen, hc0⟩ := ih prev c0 h'
          subst hl; subst hc; subst hc0
          refine ⟨?_, ?_, rfl⟩
          · simp [hmap, List.range'_1_concat, Nat.add_comm]
          · simp [hlen]

theorem abRuns_ok_spec (provider : ℕ → ProviderOutcome) :
    ∀ n l c, abRuns provider n = (.ok l, c) →
      l.map (fun r => r.run_number) = List.range' 1 n ∧ l.length = n ∧ c = n := by
  intro n
  induction n with
  | zero =>
    intro l c h
    simp only [abRuns, Prod.mk.injEq, Except.ok.injEq] at h
    obtain ⟨h1, h2⟩ := h
    subst h1; subst h2
    simp
  | succ n ih =>
    intro l c h
    simp only [abRuns] at h
    cases h' : abRuns provider n with
    | mk res c0 =>
      rw [h'] at h
      cases res with
      | error e => simp at h
      | ok prev =>
        cases h'' : runSingleEvaluationAB (provider n) with
        | error e => rw [h''] at h; simp at h
        | ok r =>
          rw [h''] at h
          simp only [Prod.mk.injEq, Except.ok.injEq] at h
          obtain ⟨hl, hc⟩ := h
          obtain ⟨hmap, hlen, hc0⟩ := ih prev c0 h'
          subst hl; subst hc; subst hc0
          refine ⟨?_, ?_, rfl⟩
          · simp [hmap, List.range'_1_concat, Nat.add_comm]
          · simp [hlen]

theorem evalRuns_ok_of_success (expectedOutput : String)
    (provider : ℕ → ProviderOutcome) :
    ∀ n, (∀ i, i < n → ∃ d st et ts, provider i = .success d st et ts) →
      ∃ l, evalRuns expectedOutput provider n = (.ok l, n) := by
  intro n
  induction n with
  | zero =>
    intro _
    exact ⟨[], rfl⟩
  | succ n ih =>
    intro hall
    obtain ⟨l, hl⟩ := ih (fun i hi => hall i (Nat.lt_succ_of_lt hi))
    obtain ⟨d, st, et, ts, hn⟩ := hall n (Nat.lt_succ_self n)
    cases hr : runSingleEvaluationEval expectedOutput (provider n) with
    | error e =>
      rw [hn] at hr
      simp [runSingleEvaluationEval] at hr
    | ok r =>
      exact ⟨l ++ [{ r with run_number := n + 1 }], by simp only [evalRuns, hl, hr]⟩

theorem evalRuns_error_at (expectedOutput : String) (provider : ℕ → ProviderOutcome)
    (j : ℕ) (status : ℕ) (body : String)
    (hfail : provider j = .httpError status body)
    (hpre : ∀ i, i < j → ∃ d st et ts, provider i = .success d st et ts) :
    ∀ n, j < n →
      evalRuns expectedOutput provider n =
        (.error (geminiErrorMessage status body), j + 1) := by
  intro n
  induction n with
  | zero => intro h; exact absurd h (Nat.not_lt_zero j)
  | succ n ih =>
    intro hj
    rcases Nat.lt_succ_iff_lt_or_eq.mp hj with hlt | heq
    · simp only [evalRuns, ih hlt]
    · subst heq
      obtain ⟨l, hl⟩ := evalRuns_ok_of_success expectedOutput provider j hpre
      simp only [evalRuns, hl, hfail, runSingleEvaluationEval]

theorem testModel_ok_spec (modelDisplayName : String) (provider : ℕ → ProviderOutcome)
    (runsPerModel : ℕ) (m : ModelResult) (c : ℕ)
    (h : testModel modelDisplayName provider runsPerModel = (.ok m, c)) :
    m.model_name = modelDisplayName ∧ m.success_rate = 100 ∧
    m.runs.length = runsPerModel ∧ c = runsPerModel ∧
    m.runs.map (fun r => r.run_number) = List.range' 1 runsPerModel ∧
    m.average_latency = round2 (if 0 < m.runs.length then
      (m.runs.map (fun r => r.latency_ms)).sum / (m.runs.length : ℚ) else 0) ∧
    m.average_tokens = round2 (if 0 < m.runs.length then
      (m.runs.map (fun r => (r.token_count : ℚ))).sum / (m.runs.length : ℚ) else 0) := by
  unfold testModel at h
  cases hab : abRuns provider runsPerModel with
  | mk res c0 =>
    rw [hab] at h
    cases res with
    | error e => simp at h
    | ok runs =>
      obtain ⟨hmap, hlen, hc0⟩ := abRuns_ok_spec provider runsPerModel runs c0 hab
      simp only [Prod.mk.injEq, Except.ok.injEq] at h
      obtain ⟨hm, hc⟩ := h
      subst hc0
      subst hc
      subst hm
      refine ⟨rfl, rfl, hlen, rfl, hmap, ?_, ?_⟩
      · simp only [foldl_add_map, zero_add, gt_iff_lt]
      · simp only [foldl_add_map, zero_add, gt_iff_lt]

theorem runModels_ok_spec (provider : String → ℕ → ProviderOutcome) (runsPerModel : ℕ) :
    ∀ mlist ms c, runModels provider runsPerModel mlist = (.ok ms, c) →
      ms.map (fun m => m.model_name) = mlist.map (fun p => p.2) ∧
      ∀ m ∈ ms, m.success_rate = 100 := by
  intro mlist
  induction mlist with
  | nil =>
    intro ms c h
    simp only [runModels, Prod.mk.injEq, Except.ok.injEq] at h
    obtain ⟨h1, _⟩ := h
    subst h1
    simp
  | cons hd tl ih =>
    intro ms c h
    cases hd with
    | mk modelId modelDisplayName =>
      simp only [runModels] at h
      cases ht : testModel modelDisplayName (provider modelId) runsPerModel with
      | mk res c1 =>
        rw [ht] at h
        cases res with
        | error e => simp at h
        | ok m =>
          cases hrest : runModels provider runsPerModel tl with
          | mk res2 c2 =>
            rw [hrest] at h
            cases res2 with
            | error e => simp at h
            | ok ms2 =>
              simp only [Prod.mk.injEq, Except.ok.injEq] at h
              obtain ⟨hms, _⟩ := h
              subst hms
              obtain ⟨hnames, hrate⟩ := ih ms2 c2 hrest
              obtain ⟨hname, hsr, _⟩ :=
                testModel_ok_spec modelDisplayName (provider modelId) runsPerModel m c1 ht
              refine ⟨?_, ?_⟩
              · simp [hnames, hname]
              · intro x hx
                rcases List.mem_cons.mp hx with hx1 | hx2
                · subst hx1; exact hsr
                · exact hrate x hx2

theorem calculatePassAtK_ok_spec (expectedOutput : String)
    (provider : ℕ → ProviderOutcome) (k : ℕ) (r : EvaluationResponse) (c : ℕ)
    (h : calculatePassAtK expectedOutput provider k = (.ok r, c)) :
    r.total_runs = k ∧ r.runs.length = k ∧ c = k ∧
    r.runs.map (fun x => x.run_number) = List.range' 1 k ∧
    r.pass_at_k = round2 (if 0 < k then
      (((r.runs.filter (fun run => run.success)).length : ℚ) / (k : ℚ)) * 100 else 0) ∧
    r.success_rate = r.pass_at_k ∧
    r.average_latency = round2 (if 0 < k then
      (r.runs.map (fun x => x.latency_ms)).sum / (k : ℚ) else 0) := by
  unfold calculatePassAtK at h
  cases hruns : evalRuns expectedOutput provider k with
  | mk res c0 =>
    rw [hruns] at h
    cases res with
    | error e => simp at h
    | ok runs =>
      obtain ⟨hmap, hlen, hc0⟩ := evalRuns_ok_spec expectedOutput provider k runs c0 hruns
      simp only [Prod.mk.injEq, Except.ok.injEq] at h
      obtain ⟨hr, hc⟩ := h
      subst hc0
      subst hc
      subst hr
      refine ⟨rfl, hlen, rfl, hmap, ?_, rfl, ?_⟩
      · simp only [gt_iff_lt]
      · simp only [foldl_add_map, zero_add, gt_iff_lt]

/-! ### Concrete environments used by witnesses -/

/-- Environment in which every evaluate-side provider call succeeds with an
empty JSON payload and zero elapsed time. -/
def trivialProvider : ℕ → ProviderOutcome :=
  fun _ => .success ⟨none, none⟩ 0 0 ("2025-01-01 00:00:00")

/-- Environment in which every ab-test-side provider call succeeds with an
empty JSON payload and zero elapsed time. -/
def trivialProviderAB : String → ℕ → ProviderOutcome :=
  fun _ _ => .success ⟨none, none⟩ 0 0 ("2025-01-01 00:00:00")

/-! ### Claims -/

/-- C1 (counterexample): the claim says `k = 0` (and `runs_per_model = 0`) is
rejected with an `InvalidArgument` 400 before any provider call.  In the code
`const k = body.k || 3` treats `0` as falsy, so `k = 0` silently becomes the
default `3`: the request is not rejected and three provider calls are made
(nine for the ab-test handler, three per model). -/
theorem C1_counterexample :
    (handleEvaluate ⟨some ("hello"), none, some 0⟩ trivialProvider
      (some ("key"))).1.isBadRequest = false ∧
    (handleEvaluate ⟨some ("hello"), none, some 0⟩ trivialProvider
      (some ("key"))).2 = 3 ∧
    (handleABTest ⟨some ("hello"), some 0⟩ trivialProviderAB
      (some ("key"))).1.isBadRequest = false ∧
    (handleABTest ⟨some ("hello"), some 0⟩ trivialProviderAB
      (some ("key"))).2 = 9 := by
  exact ⟨by decide, by decide, by decide, by decide⟩

/-- C1 (amended): for every Evaluate request whose `k` is present, nonzero and
outside [1,10] (for example 11 or -1), and every Compare request whose
`runs_per_model` is present, nonzero and outside [1,10], the request is
rejected with an `InvalidArgument` 400 response before any provider call is
made (the provider-call counter stays 0).  The value 0 is excluded: the
`|| 3` defaulting treats it as absent (see the counterexample). -/
theorem C1_theorem (body : EvaluationRequest) (abBody : ABTestRequest)
    (pe : ℕ → ProviderOutcome) (pa : String → ℕ → ProviderOutcome)
    (apiKey : Option String) (kv rv : ℤ)
    (hkey : jsTruthyStr apiKey = true)
    (htask : taskIsBlank body.task = false)
    (habtask : taskIsBlank abBody.task = false)
    (hk : body.k = some kv) (hkv : kv ≠ 0) (hkr : kv < 1 ∨ 10 < kv)
    (hrab : abBody.runs_per_model = some rv) (hrv : rv ≠ 0) (hrr : rv < 1 ∨ 10 < rv) :
    handleEvaluate body pe apiKey =
      (.badRequest ("k must be between 1 and 10"), 0) ∧
    handleABTest abBody pa apiKey =
      (.badRequest ("runs_per_model must be between 1 and 10"), 0) := by
  constructor
  · rcases hkr with hlt | hgt
    · simp [handleEvaluate, hkey, htask, hk, jsOrInt, beq_iff_eq, hkv, hlt]
    · simp [handleEvaluate, hkey, htask, hk, jsOrInt, beq_iff_eq, hkv, hgt]
  · rcases hrr with hlt | hgt
    · simp [handleABTest, hkey, habtask, hrab, jsOrInt, beq_iff_eq, hrv, hlt]
    · simp [handleABTest, hkey, habtask, hrab, jsOrInt, beq_iff_eq, hrv, hgt]

/-- C1 (witness): the amended theorem applied at `k = 11`, `runs_per_model =
11`, a non-blank task, and a present API key. -/
theorem C1_witness :
    jsTruthyStr (some ("key")) = true ∧
    taskIsBlank (some ("hello")) = false ∧
    (11 : ℤ) ≠ 0 ∧ ((11 : ℤ) < 1 ∨ (10 : ℤ) < 11) ∧
    handleEvaluate ⟨some ("hello"), none, some 11⟩ trivialProvider (some ("key")) =
      (.badRequest ("k must be between 1 and 10"), 0) ∧
    handleABTest ⟨some ("hello"), some 11⟩ trivialProviderAB (some ("key")) =
      (.badRequest ("runs_per_model must be between 1 and 10"), 0) := by
  refine ⟨by decide, by decide, by decide, Or.inr (by decide), ?_, ?_⟩
  · exact (C1_theorem ⟨some ("hello"), none, some 11⟩ ⟨some ("hello"), some 11⟩
      trivialProvider trivialProviderAB (some ("key")) 11 11 (by decide) (by decide)
      (by decide) rfl (by decide) (Or.inr (by decide)) rfl (by decide)
      (Or.inr (by decide))).1
  · exact (C1_theorem ⟨some ("hello"), none, some 11⟩ ⟨some ("hello"), some 11⟩
      trivialProvider trivialProviderAB (some ("key")) 11 11 (by decide) (by decide)
      (by decide) rfl (by decide) (Or.inr (by decide)) rfl (by decide)
      (Or.inr (by decide))).2

/-- Run record produced by `trivialProvider` once the aggregator has assigned
run number 1. -/
def sampleRun : RunResult :=
  { run_number := 1, response_text := "", latency_ms := 0, token_count := 0,
    safety_ratings := [], success := true, timestamp := "2025-01-01 00:00:00" }

/-- Evaluation response produced by `calculatePassAtK` for `k = 1` over
`trivialProvider` with a blank expected output. -/
def sampleEvalResponse : EvaluationResponse :=
  { pass_at_k := 100, average_latency := 0, success_rate := 100, total_runs := 1,
    runs := [sampleRun] }

theorem calculatePassAtK_sample :
    calculatePassAtK ("") trivialProvider 1 = (.ok sampleEvalResponse, 1) := by
  norm_num [calculatePassAtK, evalRuns, runSingleEvaluationEval, trivialProvider,
    extractText, textChain, extractSafety, firstSafety, extractTokens, jsOrNat,
    jsOrString, checkSuccess, strIsEmpty, jsTrim, round2, jsRound,
    sampleEvalResponse, sampleRun]

theorem runSingleEvaluationEval_run_number (expectedOutput : String)
    (o : ProviderOutcome) (rr : RunResult)
    (h : runSingleEvaluationEval expectedOutput o = .ok rr) : rr.run_number = 0 := by
  cases o with
  | httpError s b => simp [runSingleEvaluationEval] at h
  | success d st et ts =>
    simp only [runSingleEvaluationEval, Except.ok.injEq] at h
    subst h
    rfl

/-- C2: in every single-evaluation result for `k` runs, `pass_at_k` is the
fraction of successful runs over `k`, times 100, rounded to 2 decimals, and
`success_rate` equals `pass_at_k` exactly (both come from the same count). -/
theorem C2_theorem (expectedOutput : String) (provider : ℕ → ProviderOutcome)
    (k : ℕ) (r : EvaluationResponse) (c : ℕ) (hk : 0 < k)
    (h : calculatePassAtK expectedOutput provider k = (.ok r, c)) :
    r.pass_at_k =
      round2 ((((r.runs.filter (fun run => run.success)).length : ℚ) / (k : ℚ)) * 100) ∧
    r.success_rate = r.pass_at_k := by
  obtain ⟨-, -, -, -, hp, hs, -⟩ := calculatePassAtK_ok_spec expectedOutput provider k r c h
  rw [if_pos hk] at hp
  exact ⟨hp, hs⟩

/-- C2 (witness): the theorem applied at `k = 1` over the trivial provider. -/
theorem C2_witness :
    0 < 1 ∧
    calculatePassAtK ("") trivialProvider 1 = (.ok sampleEvalResponse, 1) ∧
    (sampleEvalResponse.pass_at_k =
      round2 ((((sampleEvalResponse.runs.filter (fun run => run.success)).length : ℚ) /
        ((1 : ℕ) : ℚ)) * 100) ∧
     sampleEvalResponse.success_rate = sampleEvalResponse.pass_at_k) :=
  ⟨Nat.one_pos, calculatePassAtK_sample,
    C2_theorem ("") trivialProvider 1 sampleEvalResponse 1 Nat.one_pos calculatePassAtK_sample⟩

/-- C3: for every `k` in [1,10], a single-model evaluation returns exactly `k`
run records whose `run_number` values are the dense sequence 1..k in order,
`total_runs` equals `k`, and the runner itself always leaves the placeholder
`run_number = 0` (the aggregator assigns the real number). -/
theorem C3_theorem (expectedOutput : String) (provider : ℕ → ProviderOutcome)
    (k : ℕ) (r : EvaluationResponse) (c : ℕ) (_hk1 : 1 ≤ k) (_hk10 : k ≤ 10)
    (h : calculatePassAtK expectedOutput provider k = (.ok r, c)) :
    r.runs.length = k ∧
    r.runs.map (fun x => x.run_number) = List.range' 1 k ∧
    r.total_runs = k ∧
    ∀ o rr, runSingleEvaluationEval expectedOutput o = .ok rr → rr.run_number = 0 := by
  obtain ⟨ht, hlen, -, hmap, -, -, -⟩ := calculatePassAtK_ok_spec expectedOutput provider k r c h
  exact ⟨hlen, hmap, ht, fun o rr ho => runSingleEvaluationEval_run_number expectedOutput o rr ho⟩

/-- C3 (witness): the theorem applied at `k = 1` over the trivial provider. -/
theorem C3_witness :
    1 ≤ 1 ∧ 1 ≤ 10 ∧
    calculatePassAtK ("") trivialProvider 1 = (.ok sampleEvalResponse, 1) ∧
    (sampleEvalResponse.runs.length = 1 ∧
     sampleEvalResponse.runs.map (fun x => x.run_number) = List.range' 1 1 ∧
     sampleEvalResponse.total_runs = 1 ∧
     ∀ o rr, runSingleEvaluationEval ("") o = .ok rr → rr.run_number = 0) :=
  ⟨Nat.le_refl 1, by decide, calculatePassAtK_sample,
    C3_theorem ("") trivialProvider 1 sampleEvalResponse 1 (Nat.le_refl 1) (by decide)
      calculatePassAtK_sample⟩

/-- Provider payload whose first candidate's first part is the example
response text of the spec. -/
def diagData : GeminiData :=
  ⟨some [⟨some ⟨some [⟨some ("Patient Diagnosis: flu")⟩]⟩, none⟩], none⟩

/-- Run record obtained from `diagData` with expected output `"diagnosis"`. -/
def diagRun : RunResult :=
  { run_number := 0, response_text := "Patient Diagnosis: flu", latency_ms := 0,
    token_count := 0, safety_ratings := [], success := true,
    timestamp := "2025-01-01 00:00:00" }

theorem diagRun_eq :
    runSingleEvaluationEval ("diagnosis") (.success diagData 0 0 ("2025-01-01 00:00:00")) =
      .ok diagRun := by
  have htext : extractText diagData = "Patient Diagnosis: flu" := by decide
  have hsucc : checkSuccess ("Patient Diagnosis: flu") ("diagnosis") = true := by decide
  have htok : extractTokens diagData = 0 := by decide
  have hsafe : extractSafety diagData = [] := by decide
  have hlat : round2 (((0 : ℤ) - 0 : ℤ) : ℚ) = 0 := by norm_num [round2, jsRound]
  simp only [runSingleEvaluationEval]
  rw [htext, hsucc, htok, hsafe, hlat]
  rfl

/-- C4: for every run of a single evaluation, a blank (or omitted) expected
output makes `success` true unconditionally; otherwise `success` is true iff
the lower-cased response text contains the lower-cased expected output as a
substring.  The spec's concrete examples are included. -/
theorem C4_theorem (expectedOutput : String) (o : ProviderOutcome) (r : RunResult)
    (h : runSingleEvaluationEval expectedOutput o = .ok r) :
    (strIsEmpty (jsTrim expectedOutput) = true → r.success = true) ∧
    (strIsEmpty (jsTrim expectedOutput) = false →
      (r.success = true ↔ ∃ pre post,
        (jsToLower r.response_text).data = pre ++ (jsToLower expectedOutput).data ++ post)) ∧
    checkSuccess ("Patient Diagnosis: flu") ("diagnosis") = true ∧
    checkSuccess ("Patient summary: flu") ("diagnosis") = false := by
  cases o with
  | httpError s b => simp [runSingleEvaluationEval] at h
  | success d st et ts =>
    simp only [runSingleEvaluationEval, Except.ok.injEq] at h
    subst h
    refine ⟨?_, ?_, by decide, by decide⟩
    · intro hb
      simp [checkSuccess, hb]
    · intro hb
      simp only [checkSuccess, hb, Bool.false_eq_true, if_false]
      exact strIncludes_iff _ _

/-- C4 (witness): the theorem applied to a provider payload whose response
text is the spec's example `"Patient Diagnosis: flu"`. -/
theorem C4_witness :
    runSingleEvaluationEval ("diagnosis")
      (.success diagData 0 0 ("2025-01-01 00:00:00")) = .ok diagRun ∧
    ((strIsEmpty (jsTrim ("diagnosis")) = true → diagRun.success = true) ∧
     (strIsEmpty (jsTrim ("diagnosis")) = false →
       (diagRun.success = true ↔ ∃ pre post,
         (jsToLower diagRun.response_text).data =
           pre ++ (jsToLower ("diagnosis")).data ++ post)) ∧
     checkSuccess ("Patient Diagnosis: flu") ("diagnosis") = true ∧
     checkSuccess ("Patient summary: flu") ("diagnosis") = false) :=
  ⟨diagRun_eq,
    C4_theorem ("diagnosis") (.success diagData 0 0 ("2025-01-01 00:00:00")) diagRun diagRun_eq⟩

/-- C5: every successful comparison response has exactly 3 model results, in
the fixed order fast, balanced, quality, and each `success_rate` is exactly
100 (no success criterion is applied to comparison runs). -/
theorem C5_theorem (body : ABTestRequest) (provider : String → ℕ → ProviderOutcome)
    (apiKey : Option String) (resp : ABTestResponse) (c : ℕ)
    (h : handleABTest body provider apiKey = (.ok resp, c)) :
    resp.models.length = 3 ∧
    resp.models.map (fun m => m.model_name) =
      [("Gemini 1.5 Flash 8B (Fast)"), ("Gemini 1.5 Flash (Balanced)"),
       ("Gemini 1.5 Pro (Quality)")] ∧
    ∀ m ∈ resp.models, m.success_rate = 100 := by
  unfold handleABTest at h
  split at h
  · simp at h
  · split at h
    · simp at h
    · dsimp only [] at h
      split at h
      · simp at h
      · cases hrm : runModels provider (jsOrInt body.runs_per_model 3).toNat modelsList with
        | mk res c0 =>
          rw [hrm] at h
          cases res with
          | error e => simp at h
          | ok ms =>
            simp only [Prod.mk.injEq, HandlerResult.ok.injEq] at h
            obtain ⟨hresp, hc⟩ := h
            subst hresp
            obtain ⟨hnames, hrate⟩ :=
              runModels_ok_spec provider (jsOrInt body.runs_per_model 3).toNat modelsList ms c0 hrm
            refine ⟨?_, ?_, hrate⟩
            · have hlen := congrArg List.length hnames
              simpa using hlen
            · rw [hnames]
              rfl

/-- Model result produced by `trivialProviderAB` with one run per model. -/
def sampleModel (name : String) : ModelResult :=
  { model_name := name, average_latency := 0, success_rate := 100,
    average_tokens := 0, runs := [sampleRun] }

/-- Comparison response produced by the ab-test handler over
`trivialProviderAB` with `runs_per_model = 1`. -/
def sampleABResponse : ABTestResponse :=
  ⟨[sampleModel ("Gemini 1.5 Flash 8B (Fast)"),
    sampleModel ("Gemini 1.5 Flash (Balanced)"),
    sampleModel ("Gemini 1.5 Pro (Quality)")]⟩

theorem handleABTest_sample :
    handleABTest ⟨some ("task"), some 1⟩ trivialProviderAB (some ("key")) =
      (.ok sampleABResponse, 3) := by
  norm_num [handleABTest, runModels, modelsList, testModel, abRuns,
    runSingleEvaluationAB, trivialProviderAB, extractText, textChain,
    extractSafety, firstSafety, extractTokens, jsOrNat, jsOrString, jsTruthyStr,
    taskIsBlank, strIsEmpty, jsTrim, jsOrInt, round2, jsRound,
    sampleABResponse, sampleModel, sampleRun]
  exact ⟨'t', by decide, by decide⟩

/-- C5 (witness): the theorem applied to a concrete comparison with one run
per model over the trivial provider. -/
theorem C5_witness :
    handleABTest ⟨some ("task"), some 1⟩ trivialProviderAB (some ("key")) =
      (.ok sampleABResponse, 3) ∧
    (sampleABResponse.models.length = 3 ∧
     sampleABResponse.models.map (fun m => m.model_name) =
       [("Gemini 1.5 Flash 8B (Fast)"), ("Gemini 1.5 Flash (Balanced)"),
        ("Gemini 1.5 Pro (Quality)")] ∧
     ∀ m ∈ sampleABResponse.models, m.success_rate = 100) :=
  ⟨handleABTest_sample,
    C5_theorem ⟨some ("task"), some 1⟩ trivialProviderAB (some ("key"))
      sampleABResponse 3 handleABTest_sample⟩

theorem jsOrNat_zero (v : Option ℕ) : jsOrNat v 0 = v.getD 0 := by
  cases v with
  | none => rfl
  | some n =>
    simp only [jsOrNat, Option.getD_some, beq_iff_eq]
    split
    · omega
    · rfl

/-- C6: per-run extraction is total on every provider payload shape:
`response_text` degrades to the empty string when any level of
`candidates`/`content`/`parts` is missing, `safety_ratings` is the empty map
when the first candidate has no safety entries, and each missing usage field
counts as 0 tokens; the runner always produces a run record from a parsed
payload (it never throws). -/
theorem C6_theorem (d : GeminiData) :
    (textChain d = none → extractText d = "") ∧
    (d.candidates = none → extractText d = "" ∧ extractSafety d = []) ∧
    (d.candidates = some [] → extractText d = "" ∧ extractSafety d = []) ∧
    (∀ c cs, d.candidates = some (c :: cs) → c.content = none → extractText d = "") ∧
    (firstSafety d = none → extractSafety d = []) ∧
    (d.usageMetadata = none → extractTokens d = 0) ∧
    (extractTokens d =
      (d.usageMetadata.bind (fun u => u.promptTokenCount)).getD 0 +
      (d.usageMetadata.bind (fun u => u.candidatesTokenCount)).getD 0) ∧
    (∀ expectedOutput st et ts, ∃ r,
      runSingleEvaluationEval expectedOutput (.success d st et ts) = .ok r ∧
      r.response_text = extractText d ∧ r.safety_ratings = extractSafety d ∧
      r.token_count = extractTokens d) := by
  refine ⟨?_, ?_, ?_, ?_, ?_, ?_, ?_, ?_⟩
  · intro h
    simp [extractText, h, jsOrString]
  · intro h
    constructor
    · simp [extractText, textChain, h, jsOrString]
    · simp [extractSafety, firstSafety, h]
  · intro h
    constructor
    · simp [extractText, textChain, h, jsOrString]
    · simp [extractSafety, firstSafety, h]
  · intro c cs h hc
    simp [extractText, textChain, h, hc, jsOrString]
  · intro h
    simp [extractSafety, h]
  · intro h
    simp [extractTokens, h, jsOrNat]
  · simp [extractTokens, jsOrNat_zero]
  · intro expectedOutput st et ts
    exact ⟨_, rfl, rfl, rfl, rfl⟩

/-- C6 (witness): the theorem applied to the fully-empty payload. -/
theorem C6_witness :
    extractText ⟨none, none⟩ = "" ∧
    extractSafety ⟨none, none⟩ = [] ∧
    extractTokens ⟨none, none⟩ = 0 ∧
    ∃ r, runSingleEvaluationEval ("") (.success ⟨none, none⟩ 0 0 ("ts")) = .ok r ∧
      r.response_text = extractText ⟨none, none⟩ ∧
      r.safety_ratings = extractSafety ⟨none, none⟩ ∧
      r.token_count = extractTokens ⟨none, none⟩ :=
  ⟨((C6_theorem ⟨none, none⟩).2.1 rfl).1,
   ((C6_theorem ⟨none, none⟩).2.1 rfl).2,
   (C6_theorem ⟨none, none⟩).2.2.2.2.2.1 rfl,
   (C6_theorem ⟨none, none⟩).2.2.2.2.2.2.2 ("") 0 0 ("ts")⟩

/-- C7: if the j-th provider call of an otherwise valid evaluate request
returns a non-success HTTP status (all earlier calls succeeding), the whole
request fails with a 500 response whose detail embeds the provider status and
raw error body, and the response carries no run records at all — the j
already-collected runs are discarded and no further calls are made. -/
theorem C7_theorem (body : EvaluationRequest) (provider : ℕ → ProviderOutcome)
    (apiKey : Option String) (status : ℕ) (errBody : String) (j : ℕ) (kv : ℤ)
    (hkey : jsTruthyStr apiKey = true)
    (htask : taskIsBlank body.task = false)
    (hk : jsOrInt body.k 3 = kv) (h1 : 1 ≤ kv) (h10 : kv ≤ 10)
    (hj : j < kv.toNat)
    (hfail : provider j = .httpError status errBody)
    (hpre : ∀ i, i < j → ∃ d st et ts, provider i = .success d st et ts) :
    handleEvaluate body provider apiKey =
      (.serverError (geminiErrorMessage status errBody), j + 1) := by
  have hcalc := evalRuns_error_at (jsOrString body.expected_output ("")) provider j
    status errBody hfail hpre kv.toNat hj
  have hcond : (decide (kv < 1) || decide (kv > 10)) = false := by
    simp only [Bool.or_eq_false_iff, decide_eq_false_iff_not]
    constructor
    · omega
    · omega
  have hcp : calculatePassAtK (jsOrString body.expected_output ("")) provider kv.toNat =
      (.error (geminiErrorMessage status errBody), j + 1) := by
    unfold calculatePassAtK
    rw [hcalc]
  simp only [handleEvaluate, hkey, Bool.not_true, Bool.false_eq_true, if_false, htask,
    hk, hcond, hcp]

/-- Provider environment whose first call succeeds and whose second call
fails with HTTP 429. -/
def failingProvider : ℕ → ProviderOutcome :=
  fun i => if i = 0 then .success ⟨none, none⟩ 0 0 ("ts") else .httpError 429 ("quota")

/-- C7 (witness): the theorem applied at `k = 2` where the second provider
call fails with status 429 and body `"quota"`. -/
theorem C7_witness :
    jsTruthyStr (some ("key")) = true ∧
    taskIsBlank (some ("task")) = false ∧
    jsOrInt (some 2) 3 = 2 ∧
    failingProvider 1 = .httpError 429 ("quota") ∧
    handleEvaluate ⟨some ("task"), none, some 2⟩ failingProvider (some ("key")) =
      (.serverError (geminiErrorMessage 429 ("quota")), 2) := by
  refine ⟨by decide, by decide, by decide, by decide, ?_⟩
  exact C7_theorem ⟨some ("task"), none, some 2⟩ failingProvider (some ("key")) 429
    ("quota") 1 2 (by decide) (by decide) (by decide) (by decide) (by decide)
    (by decide) (by decide)
    (fun i hi => by
      have hi0 : i = 0 := by omega
      subst hi0
      exact ⟨⟨none, none⟩, 0, 0, "ts", rfl⟩)

/-- C8: in every model result of a comparison over R runs, `average_latency`
and `average_tokens` are the arithmetic mean of the runs' `latency_ms` and
`token_count`, rounded to 2 decimals; the single-evaluation
`average_latency` is the mean of all K runs' `latency_ms` rounded the same
way. -/
theorem C8_theorem (modelDisplayName : String) (pa : ℕ → ProviderOutcome)
    (rpm : ℕ) (m : ModelResult) (cm : ℕ) (hrpm : 0 < rpm)
    (hm : testModel modelDisplayName pa rpm = (.ok m, cm))
    (expectedOutput : String) (pe : ℕ → ProviderOutcome) (k : ℕ)
    (r : EvaluationResponse) (ce : ℕ) (hk : 0 < k)
    (he : calculatePassAtK expectedOutput pe k = (.ok r, ce)) :
    m.average_latency = round2 ((m.runs.map (fun x => x.latency_ms)).sum / (rpm : ℚ)) ∧
    m.average_tokens =
      round2 ((m.runs.map (fun x => (x.token_count : ℚ))).sum / (rpm : ℚ)) ∧
    r.average_latency = round2 ((r.runs.map (fun x => x.latency_ms)).sum / (k : ℚ)) := by
  obtain ⟨-, -, hlen, -, -, hal, hat⟩ := testModel_ok_spec modelDisplayName pa rpm m cm hm
  obtain ⟨-, -, -, -, -, -, hel⟩ := calculatePassAtK_ok_spec expectedOutput pe k r ce he
  rw [hlen] at hal hat
  rw [if_pos hrpm] at hal hat
  rw [if_pos hk] at hel
  exact ⟨hal, hat, hel⟩

/-- Provider environment whose i-th call has latency 100 × (i + 1) ms. -/
def latencyProvider : ℕ → ProviderOutcome :=
  fun i => .success ⟨none, none⟩ 0 (100 * ((i : ℤ) + 1)) ("ts")

/-- Run with an explicit run number and latency over the empty payload. -/
def latRun (n : ℕ) (lat : ℚ) : RunResult :=
  { run_number := n, response_text := "", latency_ms := lat, token_count := 0,
    safety_ratings := [], success := true, timestamp := "ts" }

/-- Model result for the spec's latency example [100, 200, 300]. -/
def latencyModel : ModelResult :=
  { model_name := "M", average_latency := 200, success_rate := 100,
    average_tokens := 0, runs := [latRun 1 100, latRun 2 200, latRun 3 300] }

theorem testModel_latency_sample :
    testModel ("M") latencyProvider 3 = (.ok latencyModel, 3) := by
  norm_num [testModel, abRuns, runSingleEvaluationAB, latencyProvider, extractText,
    textChain, extractSafety, firstSafety, extractTokens, jsOrNat, jsOrString,
    strIsEmpty, round2, jsRound, latencyModel, latRun]

/-- C8 (witness): the theorem applied to the spec's example, three runs with
latencies [100, 200, 300] averaging to 200, and to the `k = 1` evaluation. -/
theorem C8_witness :
    0 < 3 ∧ testModel ("M") latencyProvider 3 = (.ok latencyModel, 3) ∧
    0 < 1 ∧ calculatePassAtK ("") trivialProvider 1 = (.ok sampleEvalResponse, 1) ∧
    (latencyModel.average_latency =
      round2 ((latencyModel.runs.map (fun x => x.latency_ms)).sum / ((3 : ℕ) : ℚ)) ∧
     latencyModel.average_tokens =
      round2 ((latencyModel.runs.map (fun x => (x.token_count : ℚ))).sum / ((3 : ℕ) : ℚ)) ∧
     sampleEvalResponse.average_latency =
      round2 ((sampleEvalResponse.runs.map (fun x => x.latency_ms)).sum / ((1 : ℕ) : ℚ))) :=
  ⟨Nat.succ_pos 2, testModel_latency_sample, Nat.one_pos, calculatePassAtK_sample,
    C8_theorem ("M") latencyProvider 3 latencyModel 3 (Nat.succ_pos 2)
      testModel_latency_sample ("") trivialProvider 1 sampleEvalResponse 1
      Nat.one_pos calculatePassAtK_sample⟩

/-- C9: a blank, whitespace-only or missing task is rejected by both handlers
with an `InvalidArgument` 400 response before any provider call is made (the
provider-call counter stays 0). -/
theorem C9_theorem (body : EvaluationRequest) (abBody : ABTestRequest)
    (pe : ℕ → ProviderOutcome) (pa : String → ℕ → ProviderOutcome)
    (apiKey : Option String)
    (hkey : jsTruthyStr apiKey = true)
    (h1 : taskIsBlank body.task = true)
    (h2 : taskIsBlank abBody.task = true) :
    handleEvaluate body pe apiKey = (.badRequest ("task cannot be empty"), 0) ∧
    handleABTest abBody pa apiKey = (.badRequest ("task cannot be empty"), 0) := by
  constructor
  · simp [handleEvaluate, hkey, h1]
  · simp [handleABTest, hkey, h2]

/-- C9 (witness): the theorem applied to a whitespace-only task on the
evaluate side and a missing task on the compare side. -/
theorem C9_witness :
    jsTruthyStr (some ("key")) = true ∧
    taskIsBlank (some ("   ")) = true ∧
    taskIsBlank (none : Option String) = true ∧
    handleEvaluate ⟨some ("   "), none, some 3⟩ trivialProvider (some ("key")) =
      (.badRequest ("task cannot be empty"), 0) ∧
    handleABTest ⟨none, some 3⟩ trivialProviderAB (some ("key")) =
      (.badRequest ("task cannot be empty"), 0) := by
  refine ⟨by decide, by decide, by decide, ?_, ?_⟩
  · exact (C9_theorem ⟨some ("   "), none, some 3⟩ ⟨none, some 3⟩ trivialProvider
      trivialProviderAB (some ("key")) (by decide) (by decide) (by decide)).1
  · exact (C9_theorem ⟨some ("   "), none, some 3⟩ ⟨none, some 3⟩ trivialProvider
      trivialProviderAB (some ("key")) (by decide) (by decide) (by decide)).2

/-- C10: every run's `latency_ms` is the difference of the two integer
millisecond clock readings taken around the call — a whole number — so the
rounding to 2 decimal places is the identity on it, in both workflows. -/
theorem C10_theorem (expectedOutput : String) (d : GeminiData) (st et : ℤ)
    (ts : String) (r rab : RunResult)
    (h : runSingleEvaluationEval expectedOutput (.success d st et ts) = .ok r)
    (hab : runSingleEvaluationAB (.success d st et ts) = .ok rab) :
    r.latency_ms = ((et - st : ℤ) : ℚ) ∧ (∃ n : ℤ, r.latency_ms = (n : ℚ)) ∧
    rab.latency_ms = ((et - st : ℤ) : ℚ) ∧ (∃ n : ℤ, rab.latency_ms = (n : ℚ)) := by
  simp only [runSingleEvaluationEval, Except.ok.injEq] at h
  simp only [runSingleEvaluationAB, Except.ok.injEq] at hab
  subst h
  subst hab
  exact ⟨round2_intCast (et - st), ⟨et - st, round2_intCast (et - st)⟩,
    round2_intCast (et - st), ⟨et - st, round2_intCast (et - st)⟩⟩

/-- Run record for a call with clock readings 0 and 37. -/
def lat37Run : RunResult :=
  { run_number := 0, response_text := "", latency_ms := 37, token_count := 0,
    safety_ratings := [], success := true, timestamp := "ts" }

theorem lat37_eval :
    runSingleEvaluationEval ("") (.success ⟨none, none⟩ 0 37 ("ts")) = .ok lat37Run := by
  norm_num [runSingleEvaluationEval, extractText, textChain, extractSafety,
    firstSafety, extractTokens, jsOrNat, jsOrString, checkSuccess, strIsEmpty,
    jsTrim, round2, jsRound, lat37Run]

theorem lat37_ab :
    runSingleEvaluationAB (.success ⟨none, none⟩ 0 37 ("ts")) = .ok lat37Run := by
  norm_num [runSingleEvaluationAB, extractText, textChain, extractSafety,
    firstSafety, extractTokens, jsOrNat, jsOrString, strIsEmpty, round2, jsRound,
    lat37Run]

/-- C10 (witness): the theorem applied to clock readings 0 and 37: the stored
latency is exactly the whole number 37. -/
theorem C10_witness :
    runSingleEvaluationEval ("") (.success ⟨none, none⟩ 0 37 ("ts")) = .ok lat37Run ∧
    runSingleEvaluationAB (.success ⟨none, none⟩ 0 37 ("ts")) = .ok lat37Run ∧
    (lat37Run.latency_ms = (((37 : ℤ) - 0 : ℤ) : ℚ) ∧
     (∃ n : ℤ, lat37Run.latency_ms = (n : ℚ)) ∧
     lat37Run.latency_ms = (((37 : ℤ) - 0 : ℤ) : ℚ) ∧
     (∃ n : ℤ, lat37Run.latency_ms = (n : ℚ))) :=
  ⟨lat37_eval, lat37_ab,
    C10_theorem ("") ⟨none, none⟩ 0 37 ("ts") lat37Run lat37Run lat37_eval lat37_ab⟩
